import Mathlib

/-!
Shallow embedding of the live-source-manager stream validation, classification
and reduction pipeline (src/app/stream_tester.py, src/app/m3u_generator.py,
src/app/channel_rules.py, src/app/main.py, src/app/config_manager.py).

Python dict-shaped records are modelled as fixed-shape structures whose fields
are `Option`-typed: `none` models an absent key, and every call-site read
`d.get(key, default)` is modelled by `Option.getD` with the same default.
Numeric fields use `Int` (Python ints; download speeds are floats in the source
but every claim only compares them against integer configuration bounds, so
they are modelled at integer granularity).  Strings are compared and
transformed through explicit `List Char` operations so that all definitions
are kernel-executable.
-/

/-- Case conversion as Python `str.upper()` restricted to ASCII letters;
CJK characters are unchanged, exactly as in CPython for the rule keywords
used by this program. -/
def pyUpper (s : String) : String :=
  ⟨s.data.map Char.toUpper⟩

/-- Python `needle in hay` substring test, on character lists. -/
def infixOfChars (needle hay : List Char) : Bool :=
  match hay with
  | [] => needle.isEmpty
  | _ :: t => needle.isPrefixOf hay || infixOfChars needle t

/-- Python `needle in hay` for strings. -/
def containsSub (hay needle : String) : Bool :=
  infixOfChars needle.data hay.data

/-- Python `str.split(sep)` for a single-character separator: splits on every
occurrence, keeping empty segments. -/
def splitOnChar (c : Char) (l : List Char) : List (List Char) :=
  match l with
  | [] => [[]]
  | a :: t =>
    let r := splitOnChar c t
    if a = c then [] :: r
    else match r with
         | [] => [[a]]
         | h :: t2 => (a :: h) :: t2

/-- Digits-only run parse used by `intOfChars`. -/
def digitsToNat (l : List Char) : Option Nat :=
  match l with
  | [] => none
  | _ =>
    l.foldl (fun acc c =>
      match acc with
      | none => none
      | some n => if c.isDigit then some (n * 10 + (c.toNat - 48)) else none)
      (some 0)

/-- Python `int(s)` on the token shapes occurring in this program: an optional
sign followed by decimal digits (no whitespace or underscore forms appear in
the probed metadata this code parses).  `none` models `ValueError`. -/
def intOfChars (l : List Char) : Option Int :=
  match l with
  | '-' :: rest => (digitsToNat rest).map (fun n => -(n : Int))
  | '+' :: rest => (digitsToNat rest).map (fun n => (n : Int))
  | _ => (digitsToNat l).map (fun n => (n : Int))

def intOfString (s : String) : Option Int :=
  intOfChars s.data

/-- Python `str.endswith` for a single character. -/
def endsWithChar (s : String) (c : Char) : Bool :=
  match s.data.getLast? with
  | some d => d = c
  | none => false

/-- Ordering combinator chain used to model Python tuple comparison. -/
def cmpInt (a b : Int) : Ordering :=
  if a < b then .lt else if b < a then .gt else .eq

def lexLtChars : List Char → List Char → Bool
  | [], [] => false
  | [], _ :: _ => true
  | _ :: _, [] => false
  | a :: as, b :: bs => if a < b then true else if b < a then false else lexLtChars as bs

/-- Python string `<` (code-point lexicographic). -/
def strLt (a b : String) : Bool :=
  lexLtChars a.data b.data

def cmpStr (a b : String) : Ordering :=
  if strLt a b then .lt else if strLt b a then .gt else .eq

/-! ## The record flowing through the pipeline

One playlist entry together with whatever probe / classification keys have
been merged into its dict so far.  `name` and `url` are accessed by direct
indexing in the source (`source['name']`, `source['url']`) and are therefore
required fields; every other key is read with `.get` and modelled as `Option`.
-/

structure Rec where
  name : String
  url : String
  user_agent : Option String := none
  logo : Option String := none
  group : Option String := none
  source_type : Option String := none
  status : Option String := none
  response_time : Option Int := none
  resolution : Option String := none
  bitrate : Option Int := none
  is_hd : Option Bool := none
  is_4k : Option Bool := none
  download_speed : Option Int := none
  media_type : Option String := none
  has_video_stream : Option Bool := none
  has_audio_stream : Option Bool := none
  error_reason : Option String := none
  is_qualified : Option Bool := none
  country : Option String := none
  region : Option String := none
  province : Option String := none
  city : Option String := none
  continent : Option String := none
  channel_type : Option String := none
  category : Option String := none
deriving DecidableEq

/-- `result.get('status', ...)`: the source always reads status with a
non-success default (`'unknown'` in logging) or compares `!= 'success'`;
the comparison sites use plain `.get('status')`, i.e. default `None`,
modelled as the empty string which is likewise `≠ "success"`. -/
def statusD (r : Rec) : String := r.status.getD ""

def responseTimeD (r : Rec) : Int := r.response_time.getD 9999

def resolutionD (r : Rec) : String := r.resolution.getD ""

def bitrateD (r : Rec) : Int := r.bitrate.getD 0

def downloadSpeedD (r : Rec) : Int := r.download_speed.getD 0

def mediaTypeD (r : Rec) : String := r.media_type.getD "video"

/-! ## Configuration records

`Config.get_filter_params` (src/app/config_manager.py:211-234) and the
variant embedded in src/app/main.py:285-296. -/

structure FilterParams where
  max_latency : Int
  min_bitrate : Int
  must_hd : Bool
  must_4k : Bool
  min_speed : Int
  min_resolution : String
  max_resolution : String
  resolution_filter_mode : String
deriving DecidableEq

/-- Fallback values of src/app/config_manager.py:225-234 (used by
StreamTester and EnhancedM3UGenerator). -/
def defaultFilterParams : FilterParams :=
  { max_latency := 5000
    min_bitrate := 100
    must_hd := false
    must_4k := false
    min_speed := 40
    min_resolution := "720p"
    max_resolution := "4k"
    resolution_filter_mode := "range" }

/-- The metadata dict built by `StreamTester.extract_metadata`
(src/app/stream_tester.py:371-489) and threaded through
`test_stream_url` / `test_single_stream` / the probe cache.  `none` models an
absent key.  Codec-detail keys (video_codec, video_profile, video_level,
frame_rate, pixel_format, audio_codec, audio_sample_rate, audio_channels,
audio_bitrate, stream counts, format_name) and the float-valued `duration`
ride through exactly the same dict merges and are read by no claim; they are
not modelled. -/
structure Meta where
  resolution : Option String := none
  bitrate : Option Int := none
  is_hd : Option Bool := none
  is_4k : Option Bool := none
  has_video_stream : Option Bool := none
  has_audio_stream : Option Bool := none
  media_type : Option String := none
  download_speed : Option Int := none
  error_reason : Option String := none
  is_qualified : Option Bool := none
deriving DecidableEq

/-- Python dict-merge override: the overlay's value wins when its key is
present. -/
def ov {α : Type} (base overlay : Option α) : Option α :=
  match overlay with
  | some v => some v
  | none => base

/-- `{**source, **metadata}`: merge a metadata dict over a source dict. -/
def apply_meta (r : Rec) (m : Meta) : Rec :=
  { r with
    resolution := ov r.resolution m.resolution
    bitrate := ov r.bitrate m.bitrate
    is_hd := ov r.is_hd m.is_hd
    is_4k := ov r.is_4k m.is_4k
    has_video_stream := ov r.has_video_stream m.has_video_stream
    has_audio_stream := ov r.has_audio_stream m.has_audio_stream
    media_type := ov r.media_type m.media_type
    download_speed := ov r.download_speed m.download_speed
    error_reason := ov r.error_reason m.error_reason
    is_qualified := ov r.is_qualified m.is_qualified }

namespace StreamTester

/-- The inner `parse_resolution` of `StreamTester.is_resolution_meet_min`
(src/app/stream_tester.py:750-769): "WxH" parses directly, "<N>p" implies a
16:9 width, anything else collapses to the sentinel `(0, 0)`. -/
def parse_resolution_min (res : String) : Int × Int :=
  if containsSub res "x" then
    match splitOnChar 'x' res.data with
    | [p1, p2] =>
      match intOfChars p1, intOfChars p2 with
      | some w, some h => (w, h)
      | _, _ => (0, 0)
    | _ => (0, 0)
  else if endsWithChar res 'p' then
    match intOfChars (res.data.dropLast) with
    | some h => (h * 16 / 9, h)
    | none => (0, 0)
  else (0, 0)

/-- `StreamTester.is_resolution_meet_min` (src/app/stream_tester.py:737-775).
The identical code also appears at src/app/m3u_generator.py:345-379 and
src/app/main.py:2074-2100. -/
def is_resolution_meet_min (resolution min_resolution : String) : Bool :=
  if resolution = "" || min_resolution = "" then true
  else
    let rw := parse_resolution_min resolution
    let mw := parse_resolution_min min_resolution
    decide (rw.1 ≥ mw.1) && decide (rw.2 ≥ mw.2)

/-- The inner `parse_resolution` of `StreamTester.is_resolution_meet_max`
(src/app/stream_tester.py:790-806): identical to the min-side parser except
that every failure collapses to the sentinel `(9999, 9999)`. -/
def parse_resolution_max (res : String) : Int × Int :=
  if containsSub res "x" then
    match splitOnChar 'x' res.data with
    | [p1, p2] =>
      match intOfChars p1, intOfChars p2 with
      | some w, some h => (w, h)
      | _, _ => (9999, 9999)
    | _ => (9999, 9999)
  else if endsWithChar res 'p' then
    match intOfChars (res.data.dropLast) with
    | some h => (h * 16 / 9, h)
    | none => (9999, 9999)
  else (9999, 9999)

/-- `StreamTester.is_resolution_meet_max` (src/app/stream_tester.py:777-812).
The identical code also appears at src/app/m3u_generator.py:381-415 and
src/app/main.py:2102-2132. -/
def is_resolution_meet_max (resolution max_resolution : String) : Bool :=
  if resolution = "" || max_resolution = "" then true
  else
    let rw := parse_resolution_max resolution
    let xw := parse_resolution_max max_resolution
    decide (rw.1 ≤ xw.1) && decide (rw.2 ≤ xw.2)

/-- The resolution block shared verbatim by `StreamTester.check_if_qualified`
(src/app/stream_tester.py:695-716) and
`EnhancedM3UGenerator.enhanced_filter_sources`
(src/app/m3u_generator.py:156-174): returns `false` iff the block rejects. -/
def resolution_block_ok (fp : FilterParams) (resolution : String) : Bool :=
  if fp.min_resolution ≠ "" || fp.max_resolution ≠ "" then
    if fp.resolution_filter_mode = "range" then
      (fp.min_resolution = "" || is_resolution_meet_min resolution fp.min_resolution) &&
      (fp.max_resolution = "" || is_resolution_meet_max resolution fp.max_resolution)
    else if fp.resolution_filter_mode = "min_only" then
      fp.min_resolution = "" || is_resolution_meet_min resolution fp.min_resolution
    else if fp.resolution_filter_mode = "max_only" then
      fp.max_resolution = "" || is_resolution_meet_max resolution fp.max_resolution
    else true
  else true

/-- `StreamTester.check_if_qualified` (src/app/stream_tester.py:661-735). -/
def check_if_qualified (fp : FilterParams) (result : Rec) : Bool :=
  if statusD result ≠ "success" then false
  else if mediaTypeD result = "radio" || mediaTypeD result = "audio" then
    decide (responseTimeD result ≤ fp.max_latency)
  else if ¬ (responseTimeD result ≤ fp.max_latency) then false
  else if ¬ (resolution_block_ok fp (resolutionD result)) then false
  else if bitrateD result > 0 ∧ bitrateD result < fp.min_bitrate then false
  else if fp.must_hd ∧ ¬ (result.is_hd.getD false) then false
  else if fp.must_4k ∧ ¬ (result.is_4k.getD false) then false
  else if downloadSpeedD result > 0 ∧ downloadSpeedD result < fp.min_speed then false
  else true

/-- The `try: width, height = map(int, resolution.split('x')); if width < 100
or height < 100: return 'audio'; except: pass` block of
`_determine_media_type`: true iff the resolution unpacks into two ints one of
which is below 100 (any parse/unpack failure falls through to `'video'`). -/
def misdetected_audio (resolution : String) : Bool :=
  match splitOnChar 'x' resolution.data with
  | [p1, p2] =>
    match intOfChars p1, intOfChars p2 with
    | some w, some h => decide (w < 100) || decide (h < 100)
    | _, _ => false
  | _ => false

/-- `StreamTester._determine_media_type` (src/app/stream_tester.py:580-607).
Its only input is the probe metadata dict; the channel name is not consulted. -/
def determine_media_type (metadata : Meta) : String :=
  let has_video := metadata.has_video_stream.getD false
  let resolution := metadata.resolution.getD ""
  if ¬ has_video then "audio"
  else if resolution ≠ "" && containsSub resolution "x" then
    if misdetected_audio resolution then "audio" else "video"
  else "video"

end StreamTester

/-! ## Ordered-dict helpers

Python `dict` grouping (`grouped[k].append(v)` guarded by
`if k not in grouped: grouped[k] = []`) preserves key insertion order and
per-key append order; it is modelled by an association list. -/

/-- `if k not in g: g[k] = []` followed by `g[k].append(a)`. -/
def add_to {α : Type} (g : List (String × List α)) (k : String) (a : α) :
    List (String × List α) :=
  match g with
  | [] => [(k, [a])]
  | (k0, l) :: rest =>
    if k0 = k then (k0, l ++ [a]) :: rest else (k0, l) :: add_to rest k a

/-- `if k not in g: g[k] = []` followed by `g[k].extend(as)`. -/
def extend_to {α : Type} (g : List (String × List α)) (k : String) (xs : List α) :
    List (String × List α) :=
  match g with
  | [] => [(k, xs)]
  | (k0, l) :: rest =>
    if k0 = k then (k0, l ++ xs) :: rest else (k0, l) :: extend_to rest k xs

/-! ## ChannelRules (src/app/channel_rules.py) -/

/-- One entry of the `categories` list of the YAML rule file; every key is
read with `.get` and a default (src/app/channel_rules.py:317-319). -/
structure CategoryRule where
  name : Option String := none
  priority : Option Int := none
  keywords : Option (List String) := none
deriving DecidableEq

def ruleNameD (r : CategoryRule) : String := r.name.getD "未知分类"

def rulePriorityD (r : CategoryRule) : Int := r.priority.getD 100

def ruleKeywordsD (r : CategoryRule) : List String := r.keywords.getD []

/-- The loaded rule dictionary, restricted to the `categories` section that
`determine_category` consults; `rules.get('categories', [])`. -/
structure Rules where
  categories : List CategoryRule := []
deriving DecidableEq

namespace ChannelRules

/-- The comparison used by `sorted(categories, key=lambda x: x.get('priority', 100))`
in `get_category_rules` (src/app/channel_rules.py:161-169). -/
def prio_r : CategoryRule → CategoryRule → Prop :=
  fun a b => rulePriorityD a ≤ rulePriorityD b

instance : DecidableRel prio_r := fun a b => Int.decLe _ _

instance : IsTotal CategoryRule prio_r :=
  ⟨fun a b => by unfold prio_r; omega⟩

instance : IsTrans CategoryRule prio_r :=
  ⟨fun a b c => by unfold prio_r; omega⟩

/-- `ChannelRules.get_category_rules`: the category list sorted ascending by
priority (CPython `sorted` is stable; so is insertion sort). -/
def get_category_rules (rs : Rules) : List CategoryRule :=
  List.insertionSort prio_r rs.categories

/-- The inner keyword loop of `determine_category`: does any keyword of the
rule match case-insensitively inside the (already uppercased) name. -/
def rule_matches (rule : CategoryRule) (name_upper : String) : Bool :=
  (ruleKeywordsD rule).any (fun kw => containsSub name_upper (pyUpper kw))

/-- The rule loop of `determine_category` (src/app/channel_rules.py:316-328):
first rule with a keyword match wins, otherwise the sentinel. -/
def category_loop (name_upper : String) : List CategoryRule → String
  | [] => "其他频道"
  | r :: rest =>
    if rule_matches r name_upper then ruleNameD r else category_loop name_upper rest

/-- `ChannelRules.determine_category` (src/app/channel_rules.py:295-328).
`rules = none` models the `if not self.rules` fallback branch. -/
def determine_category (rules : Option Rules) (channel_name : String) : String :=
  match rules with
  | none => "其他频道"
  | some rs => category_loop (pyUpper channel_name) (get_category_rules rs)

end ChannelRules

/-! ## EnhancedM3UGenerator (src/app/m3u_generator.py) -/

/-- `x or d` applied to an optional string read with default `d`:
`source.get(k, d) or d` maps both a missing key and an empty/None value to `d`. -/
def getOrD (o : Option String) (d : String) : String :=
  match o with
  | none => d
  | some c => if c = "" then d else c

namespace EnhancedM3UGenerator

/-- Decision for one source inside `enhanced_filter_sources`
(src/app/m3u_generator.py:126-195); the function appends the source iff this
is true.  Unlike `StreamTester.check_if_qualified`, the final speed check has
no `speed > 0` guard (src/app/m3u_generator.py:189-191). -/
def enhanced_keep (fp : FilterParams) (source : Rec) : Bool :=
  if statusD source ≠ "success" then false
  else if mediaTypeD source = "radio" || mediaTypeD source = "audio" then
    decide (responseTimeD source ≤ fp.max_latency)
  else if ¬ (responseTimeD source ≤ fp.max_latency) then false
  else if ¬ (StreamTester.resolution_block_ok fp (resolutionD source)) then false
  else if bitrateD source > 0 ∧ bitrateD source < fp.min_bitrate then false
  else if fp.must_hd ∧ ¬ (source.is_hd.getD false) then false
  else if fp.must_4k ∧ ¬ (source.is_4k.getD false) then false
  else if downloadSpeedD source < fp.min_speed then false
  else true

/-- `EnhancedM3UGenerator.enhanced_filter_sources` (src/app/m3u_generator.py:126-195). -/
def enhanced_filter_sources (fp : FilterParams) (sources : List Rec) : List Rec :=
  sources.filter (enhanced_keep fp)

/-- `EnhancedM3UGenerator.get_group_key` (src/app/m3u_generator.py:257-278). -/
def get_group_key (source : Rec) (group_by : String) : String :=
  if group_by = "country" then getOrD source.country "Unknown"
  else if group_by = "region" then getOrD source.region "Unknown"
  else if group_by = "category" then getOrD source.category "Unknown"
  else if group_by = "media_type" then getOrD source.media_type "video"
  else if group_by = "source" then getOrD source.source_type "Unknown"
  else "All Channels"

/-- Sort key relation for audio groups: ascending by
`x.get('name', '') or ''` (src/app/m3u_generator.py:243). -/
def name_r : Rec → Rec → Prop :=
  fun a b => ¬ (strLt b.name a.name = true)

instance : DecidableRel name_r := fun a b => by unfold name_r; infer_instance

/-- Composite sort key comparison for video groups
(src/app/m3u_generator.py:246-253): continent, country, province ascending,
download speed descending, response time ascending, name ascending, with all
missing values normalised. -/
def video_key_cmp (a b : Rec) : Ordering :=
  (cmpStr (a.continent.getD "") (b.continent.getD "")).then
  ((cmpStr (a.country.getD "") (b.country.getD "")).then
  ((cmpStr (a.province.getD "") (b.province.getD "")).then
  ((cmpInt (downloadSpeedD b) (downloadSpeedD a)).then
  ((cmpInt (responseTimeD a) (responseTimeD b)).then
  (cmpStr a.name b.name)))))

def video_r : Rec → Rec → Prop :=
  fun a b => video_key_cmp a b ≠ Ordering.gt

instance : DecidableRel video_r := fun a b => by unfold video_r; infer_instance

/-- Within-group sort step (src/app/m3u_generator.py:238-253): audio-style
groups (key containing one of the synthetic group names) sort by name; others
by the composite video key. -/
def sort_group (k : String) (l : List Rec) : List Rec :=
  if containsSub k "收音机" || containsSub k "在线音频" then
    List.insertionSort name_r l
  else
    List.insertionSort video_r l

/-- `EnhancedM3UGenerator.enhanced_group_and_sort_sources`
(src/app/m3u_generator.py:197-255).  The `level` argument is accepted and
never read, exactly as in the source.  The three media buckets are the
`media_groups` dict: a source's `media_type` (default `'video'`) selects the
bucket, any unexpected value falling back to `video`; the buckets are then
flushed in dict order video → audio → radio, audio and radio landing in the
two fixed synthetic groups. -/
def enhanced_group_and_sort_sources (group_by : String) (sources : List Rec)
    (level : String) : List (String × List Rec) :=
  let _ := level
  let videoL := sources.filter (fun s => !(mediaTypeD s == "audio" || mediaTypeD s == "radio"))
  let audioL := sources.filter (fun s => mediaTypeD s == "audio")
  let radioL := sources.filter (fun s => mediaTypeD s == "radio")
  let g1 := videoL.foldl (fun g s => add_to g (get_group_key s group_by) s) []
  let g2 := if audioL.isEmpty then g1 else extend_to g1 "在线音频" audioL
  let g3 := if radioL.isEmpty then g2 else extend_to g2 "收音机" radioL
  g3.map (fun kv => (kv.1, sort_group kv.1 kv.2))

end EnhancedM3UGenerator

/-! ## main.py M3UGenerator (the historical in-file variant) -/

namespace MainPy

/-- `Config.get_output_params` of src/app/main.py:254-263 (fallback values). -/
structure OutputParams where
  filename : String := "live.m3u"
  group_by : String := "source"
  include_failed : Bool := false
  max_sources_per_channel : Nat := 4
  enable_filter : Bool := true
  output_dir : String := "/www/output"
deriving DecidableEq

def default_output_params : OutputParams := {}

/-- The step-2 sort key of `M3UGenerator.group_and_sort_sources`
(src/app/main.py:2166-2169): `(-download_speed, response_time)`, i.e. speed
descending then latency ascending; nothing else enters the key. -/
def speed_latency_r : Rec → Rec → Prop :=
  fun a b =>
    downloadSpeedD b < downloadSpeedD a ∨
    (downloadSpeedD a = downloadSpeedD b ∧ responseTimeD a ≤ responseTimeD b)

instance : DecidableRel speed_latency_r := fun a b => by
  unfold speed_latency_r; infer_instance

instance : IsTotal Rec speed_latency_r :=
  ⟨fun a b => by unfold speed_latency_r; omega⟩

instance : IsTrans Rec speed_latency_r :=
  ⟨fun a b c => by unfold speed_latency_r; omega⟩

/-- The optional 720p validity filter applied to one channel's sources
(src/app/main.py:2158-2160). -/
def channel_candidates (enable_filter : Bool) (channel_sources : List Rec) :
    List Rec :=
  if enable_filter then
    channel_sources.filter
      (fun s => StreamTester.is_resolution_meet_min (resolutionD s) "720p")
  else channel_sources

/-- The per-channel reduction inside `M3UGenerator.group_and_sort_sources`
(src/app/main.py:2157-2172): optionally drop sources below 720p, sort stably
by `(-speed, latency)`, and keep the first `k`. -/
def select_top (enable_filter : Bool) (k : Nat) (channel_sources : List Rec) :
    List Rec :=
  (List.insertionSort speed_latency_r (channel_candidates enable_filter channel_sources)).take k

/-- Group-key selection of src/app/main.py:2176-2186 (no `or` normalisation
in this variant). -/
def main_group_key (group_by : String) (s : Rec) : String :=
  if group_by = "country" then s.country.getD "Unknown"
  else if group_by = "region" then s.region.getD "Unknown"
  else if group_by = "category" then s.category.getD "Unknown"
  else if group_by = "source" then s.source_type.getD "Unknown"
  else "All Channels"

/-- Step-4 within-group key of src/app/main.py:2196-2203:
(continent, country, province, city, channel_type, name) ascending. -/
def step4_cmp (a b : Rec) : Ordering :=
  (cmpStr (a.continent.getD "") (b.continent.getD "")).then
  ((cmpStr (a.country.getD "") (b.country.getD "")).then
  ((cmpStr (a.province.getD "") (b.province.getD "")).then
  ((cmpStr (a.city.getD "") (b.city.getD "")).then
  ((cmpStr (a.channel_type.getD "") (b.channel_type.getD "")).then
  (cmpStr a.name b.name)))))

def step4_r : Rec → Rec → Prop :=
  fun a b => step4_cmp a b ≠ Ordering.gt

instance : DecidableRel step4_r := fun a b => by unfold step4_r; infer_instance

/-- `M3UGenerator.group_and_sort_sources` (src/app/main.py:2134-2205).
When filtering is disabled the cap is overwritten with the literal 4
(src/app/main.py:2143-2145); channels whose filtered list is empty contribute
nothing (`continue`), which coincides with appending the empty selection. -/
def group_and_sort_sources (op : OutputParams) (sources : List Rec) :
    List (String × List Rec) :=
  let k := if ¬ op.enable_filter then 4 else op.max_sources_per_channel
  let channels := sources.foldl (fun g s => add_to g s.name s) []
  let processed := channels.foldl
    (fun acc kv => acc ++ select_top op.enable_filter k kv.2) []
  let grouped := processed.foldl
    (fun g s => add_to g (main_group_key op.group_by s) s) []
  grouped.map (fun kv => (kv.1, List.insertionSort step4_r kv.2))

end MainPy

/-! ## Claims C5, C6, C7, C8 -/

/-- Helper for C5: if no rule matches, the loop reaches the sentinel. -/
lemma category_loop_of_no_match (u : String) (l : List CategoryRule)
    (h : ∀ r ∈ l, ChannelRules.rule_matches r u = false) :
    ChannelRules.category_loop u l = "其他频道" := by
  induction l with
  | nil => rfl
  | cons r rest ih =>
    unfold ChannelRules.category_loop
    rw [h r (List.mem_cons_self r rest)]
    exact ih (fun t ht => h t (List.mem_cons_of_mem r ht))

/-- C5: category resolution is a pure function of (name, rule set); rules are
tried in ascending numeric priority, the first case-insensitive keyword match
wins (so a priority-1 rule beats a priority-10 rule even when listed after
it), and the sentinel category 其他频道 ("Other Channels") is returned when no
rule matches. -/
theorem determine_category_priority_order :
    (∀ (A B : CategoryRule) (name : String),
        rulePriorityD A < rulePriorityD B →
        ChannelRules.rule_matches A (pyUpper name) = true →
        ChannelRules.determine_category (some { categories := [B, A] }) name
          = ruleNameD A) ∧
    (∀ (rs : Rules) (name : String),
        (∀ r ∈ rs.categories, ChannelRules.rule_matches r (pyUpper name) = false) →
        ChannelRules.determine_category (some rs) name = "其他频道") := by
  constructor
  · intro A B name hlt hm
    unfold ChannelRules.determine_category ChannelRules.get_category_rules
    simp only [List.insertionSort, List.orderedInsert]
    have hnb : ¬ ChannelRules.prio_r B A := by unfold ChannelRules.prio_r; omega
    rw [if_neg hnb]
    unfold ChannelRules.category_loop
    rw [hm]
    simp
  · intro rs name h
    unfold ChannelRules.determine_category
    refine category_loop_of_no_match _ _ (fun r hr => ?_)
    exact h r ((List.perm_insertionSort ChannelRules.prio_r rs.categories).subset hr)

/-- Witness for C5 at the spec's own example: a priority-1 CCTV rule listed
after a priority-10 news rule still wins for a name matching both, and a name
matching nothing resolves to the sentinel. -/
theorem determine_category_priority_order_witness :
    ChannelRules.determine_category
      (some { categories :=
        [ { name := some "新闻频道", priority := some 10, keywords := some ["News"] },
          { name := some "央视频道", priority := some 1, keywords := some ["CCTV"] } ] })
      "CCTV-13 news" = "央视频道" ∧
    ChannelRules.determine_category
      (some { categories :=
        [ { name := some "新闻频道", priority := some 10, keywords := some ["News"] },
          { name := some "央视频道", priority := some 1, keywords := some ["CCTV"] } ] })
      "湖南卫视" = "其他频道" := by
  constructor
  · exact determine_category_priority_order.1
      { name := some "央视频道", priority := some 1, keywords := some ["CCTV"] }
      { name := some "新闻频道", priority := some 10, keywords := some ["News"] }
      "CCTV-13 news" (by decide) (by decide)
  · exact determine_category_priority_order.2 _ "湖南卫视" (by decide)

/-- C6 (code bug): `_determine_media_type` takes only the probe metadata —
the channel name is not an input — and for a source with no video stream it
returns `'audio'` unconditionally; the value `'radio'` is unreachable even
though the function's own docstring lists it and the generator has a
dedicated radio group.  The spec's FM radio scenario therefore yields
`'audio'`, not `'radio'`. -/
theorem determine_media_type_never_radio :
    StreamTester.determine_media_type
      { has_video_stream := some false, has_audio_stream := some true,
        resolution := some "" } = "audio" ∧
    ∀ m : Meta, StreamTester.determine_media_type m ≠ "radio" := by
  refine ⟨rfl, ?_⟩
  intro m
  simp only [StreamTester.determine_media_type]
  split
  · decide
  · split
    · split <;> decide
    · decide

/-- Counterexample for C7: the claim says a non-empty unparsable resolution
string passes the min-resolution bound; on the code, "abc" parses to the
sentinel `(0, 0)` in the min check and fails the `720p` minimum. -/
theorem is_resolution_meet_min_unparsable_fails :
    StreamTester.is_resolution_meet_min "abc" "720p" = false := by decide

/-- C7 (amended): a non-empty resolution string that parses as neither
"WxH" nor "<N>p" fails BOTH bounds, not just the max bound: the min check
collapses it to sentinel `(0, 0)`, failing every min bound with a positive
component, and the max check collapses it to `(9999, 9999)`, failing every
max bound below 9999; only the empty string passes the bound it cannot
evaluate.  The spec scenario ("abc" under `max_only` with max `1080p` fails
qualification) does hold. -/
theorem resolution_unparsable_fails_both (res minr maxr : String)
    (hres : res ≠ "") (hminr : minr ≠ "") (hmaxr : maxr ≠ "")
    (hpmin : StreamTester.parse_resolution_min res = (0, 0))
    (hpmax : StreamTester.parse_resolution_max res = (9999, 9999))
    (hbmin : 0 < (StreamTester.parse_resolution_min minr).1 ∨
             0 < (StreamTester.parse_resolution_min minr).2)
    (hbmax : (StreamTester.parse_resolution_max maxr).1 < 9999 ∨
             (StreamTester.parse_resolution_max maxr).2 < 9999) :
    StreamTester.is_resolution_meet_min res minr = false ∧
    StreamTester.is_resolution_meet_max res maxr = false ∧
    StreamTester.check_if_qualified
      { max_latency := 5000, min_bitrate := 100, must_hd := false,
        must_4k := false, min_speed := 40, min_resolution := "720p",
        max_resolution := "1080p", resolution_filter_mode := "max_only" }
      { name := "ch", url := "http://e/s", status := some "success",
        media_type := some "video", response_time := some 100,
        resolution := some "abc", bitrate := some 0,
        download_speed := some 0 } = false := by
  refine ⟨?_, ?_, by decide⟩
  · unfold StreamTester.is_resolution_meet_min
    rw [if_neg (by simp [hres, hminr])]
    rw [hpmin]
    rcases hbmin with h | h <;> simp <;> omega
  · unfold StreamTester.is_resolution_meet_max
    rw [if_neg (by simp [hres, hmaxr])]
    rw [hpmax]
    rcases hbmax with h | h <;> simp <;> omega

/-- Witness for C7 at res="abc", min="720p", max="1080p". -/
theorem resolution_unparsable_fails_both_witness :
    StreamTester.is_resolution_meet_min "abc" "720p" = false ∧
    StreamTester.is_resolution_meet_max "abc" "1080p" = false ∧
    StreamTester.check_if_qualified
      { max_latency := 5000, min_bitrate := 100, must_hd := false,
        must_4k := false, min_speed := 40, min_resolution := "720p",
        max_resolution := "1080p", resolution_filter_mode := "max_only" }
      { name := "ch", url := "http://e/s", status := some "success",
        media_type := some "video", response_time := some 100,
        resolution := some "abc", bitrate := some 0,
        download_speed := some 0 } = false :=
  resolution_unparsable_fails_both "abc" "720p" "1080p"
    (by decide) (by decide) (by decide) (by decide) (by decide)
    (by decide) (by decide)

/-- Counterexample for C8: under the default filter parameters
(`min_speed = 40`), `enhanced_filter_sources` rejects a fully healthy
success source whose download speed is 0 (unmeasured): the claim that a
zero speed always passes the minimum-speed bound fails at the cited
m3u_generator code. -/
theorem enhanced_filter_drops_zero_speed :
    EnhancedM3UGenerator.enhanced_filter_sources defaultFilterParams
      [ { name := "CCTV-1 综合", url := "http://e/1", status := some "success",
          media_type := some "video", response_time := some 100,
          resolution := some "1920x1080", bitrate := some 0,
          download_speed := some 0, is_hd := some true } ] = [] := by decide

/-- C8 (amended): in `StreamTester.check_if_qualified` a bitrate of 0 and a
download speed of 0 both pass their minimum bounds (only positive measured
values below the bound reject), but in
`EnhancedM3UGenerator.enhanced_filter_sources` the speed check has no
`speed > 0` guard, so a video source with download speed 0 is rejected
whenever `min_speed > 0`; the bitrate-0 behaviour is shared by both. -/
theorem zero_bitrate_speed_qualification (fp : FilterParams) (r : Rec)
    (hst : statusD r = "success") (hmt : mediaTypeD r = "video")
    (hrt : responseTimeD r ≤ fp.max_latency)
    (hres : StreamTester.resolution_block_ok fp (resolutionD r) = true)
    (hhd : fp.must_hd = false) (h4k : fp.must_4k = false)
    (hbr : bitrateD r = 0) (hsp : downloadSpeedD r = 0)
    (hms : 0 < fp.min_speed) :
    StreamTester.check_if_qualified fp r = true ∧
    EnhancedM3UGenerator.enhanced_filter_sources fp [r] = [] := by
  constructor
  · unfold StreamTester.check_if_qualified
    rw [hst, hmt]
    simp [hrt, hres, hbr, hsp, hhd, h4k]
  · have hk : EnhancedM3UGenerator.enhanced_keep fp r = false := by
      unfold EnhancedM3UGenerator.enhanced_keep
      rw [hst, hmt]
      simp [hrt, hres, hbr, hsp, hhd, h4k, hms]
    unfold EnhancedM3UGenerator.enhanced_filter_sources
    simp [List.filter, hk]

/-- Witness for C8 at the default filter parameters and a concrete healthy
zero-speed, zero-bitrate source. -/
theorem zero_bitrate_speed_qualification_witness :
    StreamTester.check_if_qualified defaultFilterParams
      { name := "CCTV-2 财经", url := "http://e/2", status := some "success",
        media_type := some "video", response_time := some 200,
        resolution := some "1280x720", bitrate := some 0,
        download_speed := some 0 } = true ∧
    EnhancedM3UGenerator.enhanced_filter_sources defaultFilterParams
      [ { name := "CCTV-2 财经", url := "http://e/2", status := some "success",
          media_type := some "video", response_time := some 200,
          resolution := some "1280x720", bitrate := some 0,
          download_speed := some 0 } ] = [] :=
  zero_bitrate_speed_qualification defaultFilterParams _
    rfl rfl (by decide) (by decide) rfl rfl rfl rfl (by decide)

/-! ## Claim C2 -/

/-- Six healthy 720p sources of one channel, equal speed and latency, listed
in ascending-bitrate order. -/
def c2_src1 : Rec :=
  { name := "CCTV-1", url := "http://e/1", status := some "success",
    media_type := some "video", resolution := some "1280x720",
    response_time := some 100, download_speed := some 50, bitrate := some 100 }

def c2_src2 : Rec := { c2_src1 with url := "http://e/2", bitrate := some 200 }

def c2_src3 : Rec := { c2_src1 with url := "http://e/3", bitrate := some 300 }

def c2_src4 : Rec := { c2_src1 with url := "http://e/4", bitrate := some 400 }

def c2_src5 : Rec := { c2_src1 with url := "http://e/5", bitrate := some 500 }

def c2_src6 : Rec := { c2_src1 with url := "http://e/6", bitrate := some 600 }

/-- Counterexample for C2: under the default output parameters of
src/app/main.py (`max_sources_per_channel` falls back to 4, `group_by` to
`'source'`), a channel group holding six valid ≥720p sources keeps exactly
FOUR survivors, not five — and with speed and latency tied they are the first
four in input order (the stable sort ignores bitrate and name), i.e. the four
with the LOWEST bitrates, not the five best by the claimed
(-speed, latency, -bitrate, name) key. -/
theorem group_and_sort_sources_cap_is_four :
    MainPy.group_and_sort_sources MainPy.default_output_params
      [c2_src1, c2_src2, c2_src3, c2_src4, c2_src5, c2_src6]
      = [("Unknown", [c2_src1, c2_src2, c2_src3, c2_src4])] := by decide

/-- C2 (amended): in `M3UGenerator.group_and_sort_sources` every media type
groups by channel name alone, and within a channel the survivors are the
first `k` entries of the stable sort by download speed descending (missing
treated as 0) then response time ascending (missing treated as 9999) — the
key involves neither bitrate nor name — taken from the sources that pass the
720p minimum filter (applied iff `enable_filter`); `k` is
`max_sources_per_channel` (default 4), overwritten with the literal 4 when
filtering is disabled.  Thus exactly `min k N'` survive out of `N'` filtered
candidates, and every survivor's key is at least as good as every discarded
candidate's. -/
theorem select_top_cap_and_key (ef : Bool) (k : Nat) (chs : List Rec) :
    (MainPy.select_top ef k chs).length = min k (MainPy.channel_candidates ef chs).length ∧
    ∀ s ∈ MainPy.select_top ef k chs,
      ∀ t ∈ (List.insertionSort MainPy.speed_latency_r
              (MainPy.channel_candidates ef chs)).drop k,
        MainPy.speed_latency_r s t := by
  constructor
  · unfold MainPy.select_top
    rw [List.length_take, List.length_insertionSort]
  · intro s hs t ht
    exact (List.sorted_insertionSort MainPy.speed_latency_r
      (MainPy.channel_candidates ef chs)).rel_of_mem_take_of_mem_drop hs ht

/-- The three-source channel used by the C2 witness: a fast/high-latency
source, a medium one, and a slow/low-latency one. -/
def c2_fast : Rec :=
  { c2_src1 with url := "http://e/b", download_speed := some 500, response_time := some 100 }

def c2_mid : Rec :=
  { c2_src1 with url := "http://e/a", download_speed := some 100, response_time := some 50 }

def c2_slow : Rec :=
  { c2_src1 with url := "http://e/c", download_speed := some 30, response_time := some 10 }

/-- Witness for C2's amended statement: with a cap of 2 over three sources,
two survive and the spec's own Layer-2 scenario pair is ordered with speed as
the primary key: the fast/high-latency survivor dominates the dropped slow
source. -/
theorem select_top_cap_and_key_witness :
    (MainPy.select_top true 2 [c2_mid, c2_fast, c2_slow]).length
      = min 2 (MainPy.channel_candidates true [c2_mid, c2_fast, c2_slow]).length ∧
    MainPy.speed_latency_r c2_fast c2_slow := by
  refine ⟨(select_top_cap_and_key true 2 [c2_mid, c2_fast, c2_slow]).1, ?_⟩
  exact (select_top_cap_and_key true 2 [c2_mid, c2_fast, c2_slow]).2
    c2_fast (by decide) c2_slow (by decide)

/-! ## Claim C9: grouping diverts audio/radio and loses nothing -/

lemma flatten_map_snd_add_to {α : Type} (g : List (String × List α)) (k : String) (a : α) :
    (((add_to g k a).map Prod.snd).flatten).Perm (a :: (g.map Prod.snd).flatten) := by
  induction g with
  | nil => simp [add_to]
  | cons kv rest ih =>
    rcases kv with ⟨k0, l⟩
    by_cases h : k0 = k
    · simp only [add_to, if_pos h, List.map_cons, List.flatten_cons]
      rw [List.append_assoc]
      exact List.perm_middle
    · simp only [add_to, if_neg h, List.map_cons, List.flatten_cons]
      exact (List.Perm.append_left l ih).trans List.perm_middle

lemma flatten_map_snd_fold {α : Type} (key : α → String) (xs : List α)
    (g : List (String × List α)) :
    (((xs.foldl (fun g s => add_to g (key s) s) g).map Prod.snd).flatten).Perm
      ((g.map Prod.snd).flatten ++ xs) := by
  induction xs generalizing g with
  | nil => simp
  | cons x xs ih =>
    simp only [List.foldl_cons]
    refine ((ih (add_to g (key x) x)).trans ?_)
    refine (List.Perm.append_right xs (flatten_map_snd_add_to g (key x) x)).trans ?_
    exact List.perm_middle.symm

lemma flatten_map_snd_extend_to {α : Type} (g : List (String × List α)) (k : String)
    (xs : List α) :
    (((extend_to g k xs).map Prod.snd).flatten).Perm ((g.map Prod.snd).flatten ++ xs) := by
  induction g with
  | nil => simp [extend_to]
  | cons kv rest ih =>
    rcases kv with ⟨k0, l⟩
    by_cases h : k0 = k
    · simp only [extend_to, if_pos h, List.map_cons, List.flatten_cons]
      rw [List.append_assoc, List.append_assoc]
      exact List.Perm.append_left l (List.perm_append_comm)
    · simp only [extend_to, if_neg h, List.map_cons, List.flatten_cons]
      rw [List.append_assoc]
      exact List.Perm.append_left l ih

lemma media_filter_three_perm (l : List Rec) :
    ((l.filter (fun s => !(mediaTypeD s == "audio" || mediaTypeD s == "radio")))
      ++ (l.filter (fun s => mediaTypeD s == "audio"))
      ++ (l.filter (fun s => mediaTypeD s == "radio"))).Perm l := by
  have hp := List.filter_append_perm
    (fun s => mediaTypeD s == "audio" || mediaTypeD s == "radio") l
  have hq := List.filter_append_perm (fun s => mediaTypeD s == "audio")
    (l.filter (fun s => mediaTypeD s == "audio" || mediaTypeD s == "radio"))
  rw [List.filter_filter, List.filter_filter] at hq
  have e1 : (l.filter (fun a =>
      (mediaTypeD a == "audio") && (mediaTypeD a == "audio" || mediaTypeD a == "radio")))
      = l.filter (fun s => mediaTypeD s == "audio") := by
    apply List.filter_congr
    intro a _
    by_cases h : mediaTypeD a = "audio" <;> simp [h]
  have e2 : (l.filter (fun a =>
      (!(mediaTypeD a == "audio")) && (mediaTypeD a == "audio" || mediaTypeD a == "radio")))
      = l.filter (fun s => mediaTypeD s == "radio") := by
    apply List.filter_congr
    intro a _
    by_cases h : mediaTypeD a = "audio"
    · simp [h]
    · by_cases h2 : mediaTypeD a = "radio"
      · simp [h2, beq_false_of_ne h]
      · simp [beq_false_of_ne h, beq_false_of_ne h2]
  rw [e1, e2] at hq
  rw [List.append_assoc]
  exact (List.Perm.append_left _ hq).trans ((List.perm_append_comm).trans hp)

lemma sort_group_perm (k : String) (l : List Rec) :
    (EnhancedM3UGenerator.sort_group k l).Perm l := by
  unfold EnhancedM3UGenerator.sort_group
  split
  · exact List.perm_insertionSort _ _
  · exact List.perm_insertionSort _ _

lemma flatten_map_snd_sort (g : List (String × List Rec)) :
    (((g.map (fun kv => (kv.1, EnhancedM3UGenerator.sort_group kv.1 kv.2))).map
        Prod.snd).flatten).Perm ((g.map Prod.snd).flatten) := by
  induction g with
  | nil => simp
  | cons kv rest ih =>
    simp only [List.map_cons, List.flatten_cons]
    exact (List.Perm.append_right _ (sort_group_perm kv.1 kv.2)).trans
      (List.Perm.append_left _ ih) |>.trans (List.Perm.refl _)

lemma lookup_map_sort (g : List (String × List Rec)) (k : String) :
    ((g.map (fun kv => (kv.1, EnhancedM3UGenerator.sort_group kv.1 kv.2))).lookup k)
      = (g.lookup k).map (EnhancedM3UGenerator.sort_group k) := by
  induction g with
  | nil => simp
  | cons kv rest ih =>
    rcases kv with ⟨k0, l⟩
    by_cases h : k = k0
    · subst h
      simp [List.lookup]
    · simp [List.lookup, beq_false_of_ne h, ih]

lemma lookup_extend_to_self {α : Type} (g : List (String × List α)) (k : String)
    (xs : List α) :
    ∃ l0, (extend_to g k xs).lookup k = some (l0 ++ xs) := by
  induction g with
  | nil => exact ⟨[], by simp [extend_to, List.lookup]⟩
  | cons kv rest ih =>
    rcases kv with ⟨k0, l⟩
    by_cases h : k0 = k
    · subst h
      exact ⟨l, by simp [extend_to, List.lookup]⟩
    · rcases ih with ⟨l0, hl0⟩
      refine ⟨l0, ?_⟩
      simp only [extend_to, if_neg h, List.lookup]
      rw [beq_false_of_ne (fun hkk => h hkk.symm)]
      exact hl0

lemma lookup_extend_to_ne {α : Type} (g : List (String × List α)) (k k' : String)
    (xs : List α) (h : k' ≠ k) :
    (extend_to g k xs).lookup k' = g.lookup k' := by
  induction g with
  | nil => simp [extend_to, List.lookup, beq_false_of_ne h]
  | cons kv rest ih =>
    rcases kv with ⟨k0, l⟩
    by_cases h0 : k0 = k
    · subst h0
      simp [extend_to, List.lookup, beq_false_of_ne h]
    · by_cases h1 : k' = k0
      · subst h1
        simp [extend_to, if_neg h0, List.lookup]
      · simp [extend_to, if_neg h0, List.lookup, beq_false_of_ne h1, ih]

lemma add_to_preserve {α : Type} (P : α → Prop) (g : List (String × List α))
    (k : String) (a : α)
    (hg : ∀ kv ∈ g, ∀ t ∈ kv.2, P t) (ha : P a) :
    ∀ kv ∈ add_to g k a, ∀ t ∈ kv.2, P t := by
  induction g with
  | nil =>
    intro kv hkv t ht
    simp only [add_to, List.mem_singleton] at hkv
    subst hkv
    simp only [List.mem_singleton] at ht
    subst ht
    exact ha
  | cons kv0 rest ih =>
    rcases kv0 with ⟨k0, l⟩
    intro kv hkv t ht
    by_cases h : k0 = k
    · simp only [add_to, if_pos h, List.mem_cons] at hkv
      rcases hkv with h1 | h1
      · subst h1
        simp only [List.mem_append, List.mem_singleton] at ht
        rcases ht with h2 | h2
        · exact hg (k0, l) (List.mem_cons_self _ _) t h2
        · subst h2; exact ha
      · exact hg kv (List.mem_cons_of_mem _ h1) t ht
    · simp only [add_to, if_neg h, List.mem_cons] at hkv
      rcases hkv with h1 | h1
      · subst h1
        exact hg (k0, l) (List.mem_cons_self _ _) t ht
      · exact ih (fun kv2 hkv2 => hg kv2 (List.mem_cons_of_mem _ hkv2)) kv h1 t ht

lemma fold_add_to_preserve {α : Type} (P : α → Prop) (key : α → String)
    (xs : List α) (g : List (String × List α))
    (hg : ∀ kv ∈ g, ∀ t ∈ kv.2, P t) (hx : ∀ x ∈ xs, P x) :
    ∀ kv ∈ xs.foldl (fun g s => add_to g (key s) s) g, ∀ t ∈ kv.2, P t := by
  induction xs generalizing g with
  | nil => exact hg
  | cons x xs ih =>
    simp only [List.foldl_cons]
    exact ih (add_to g (key x) x)
      (add_to_preserve P g (key x) x hg (hx x (List.mem_cons_self _ _)))
      (fun y hy => hx y (List.mem_cons_of_mem _ hy))

lemma mem_extend_to {α : Type} (g : List (String × List α)) (k : String)
    (xs : List α) (kv : String × List α) (h : kv ∈ extend_to g k xs) :
    kv ∈ g ∨ kv.1 = k := by
  induction g with
  | nil =>
    simp only [extend_to, List.mem_singleton] at h
    subst h
    exact Or.inr rfl
  | cons kv0 rest ih =>
    rcases kv0 with ⟨k0, l⟩
    by_cases h0 : k0 = k
    · simp only [extend_to, if_pos h0, List.mem_cons] at h
      rcases h with h1 | h1
      · subst h1; exact Or.inr h0
      · exact Or.inl (List.mem_cons_of_mem _ h1)
    · simp only [extend_to, if_neg h0, List.mem_cons] at h
      rcases h with h1 | h1
      · subst h1; exact Or.inl (List.mem_cons_self _ _)
      · rcases ih h1 with h2 | h2
        · exact Or.inl (List.mem_cons_of_mem _ h2)
        · exact Or.inr h2

/-- Step-1 buckets of `enhanced_group_and_sort_sources`: the `media_groups`
dict, with anything that is not audio/radio falling into the video bucket. -/
def videoList (sources : List Rec) : List Rec :=
  sources.filter (fun s => !(mediaTypeD s == "audio" || mediaTypeD s == "radio"))

def audioList (sources : List Rec) : List Rec :=
  sources.filter (fun s => mediaTypeD s == "audio")

def radioList (sources : List Rec) : List Rec :=
  sources.filter (fun s => mediaTypeD s == "radio")

/-- The grouped dict after flushing the video bucket. -/
def g1Of (group_by : String) (sources : List Rec) : List (String × List Rec) :=
  (videoList sources).foldl
    (fun g s => add_to g (EnhancedM3UGenerator.get_group_key s group_by) s) []

/-- ... after flushing the audio bucket into the synthetic 在线音频 group. -/
def g2Of (group_by : String) (sources : List Rec) : List (String × List Rec) :=
  if (audioList sources).isEmpty then g1Of group_by sources
  else extend_to (g1Of group_by sources) "在线音频" (audioList sources)

/-- ... after flushing the radio bucket into the synthetic 收音机 group. -/
def g3Of (group_by : String) (sources : List Rec) : List (String × List Rec) :=
  if (radioList sources).isEmpty then g2Of group_by sources
  else extend_to (g2Of group_by sources) "收音机" (radioList sources)

lemma enhanced_group_and_sort_eq (group_by : String) (sources : List Rec)
    (level : String) :
    EnhancedM3UGenerator.enhanced_group_and_sort_sources group_by sources level
      = (g3Of group_by sources).map
          (fun kv => (kv.1, EnhancedM3UGenerator.sort_group kv.1 kv.2)) := rfl

/-- C9: `enhanced_group_and_sort_sources` diverts every audio source into the
fixed synthetic group 在线音频 ("Online Audio") and every radio source into
收音机 ("Radio Stations") regardless of the configured grouping key, keeps
audio/radio out of every other group, and the union of all output groups is
exactly the input multiset — nothing dropped, nothing duplicated. -/
theorem enhanced_group_and_sort_complete (group_by level : String)
    (sources : List Rec) :
    ((((EnhancedM3UGenerator.enhanced_group_and_sort_sources group_by sources level).map
        Prod.snd).flatten).Perm sources) ∧
    (∀ s ∈ sources, mediaTypeD s = "audio" →
      ∃ l, (EnhancedM3UGenerator.enhanced_group_and_sort_sources group_by sources
              level).lookup "在线音频" = some l ∧ s ∈ l) ∧
    (∀ s ∈ sources, mediaTypeD s = "radio" →
      ∃ l, (EnhancedM3UGenerator.enhanced_group_and_sort_sources group_by sources
              level).lookup "收音机" = some l ∧ s ∈ l) ∧
    (∀ kv ∈ EnhancedM3UGenerator.enhanced_group_and_sort_sources group_by sources level,
      kv.1 ≠ "在线音频" → kv.1 ≠ "收音机" →
      ∀ s ∈ kv.2, mediaTypeD s ≠ "audio" ∧ mediaTypeD s ≠ "radio") := by
  have heq := enhanced_group_and_sort_eq group_by sources level
  have h1 : ((g1Of group_by sources).map Prod.snd).flatten.Perm (videoList sources) := by
    have h := flatten_map_snd_fold
      (fun s => EnhancedM3UGenerator.get_group_key s group_by) (videoList sources) []
    simpa using h
  have h2 : ((g2Of group_by sources).map Prod.snd).flatten.Perm
      (((g1Of group_by sources).map Prod.snd).flatten ++ audioList sources) := by
    unfold g2Of
    by_cases h : (audioList sources).isEmpty
    · rw [if_pos h, List.isEmpty_iff.mp h, List.append_nil]
    · rw [if_neg h]
      exact flatten_map_snd_extend_to _ _ _
  have h3 : ((g3Of group_by sources).map Prod.snd).flatten.Perm
      (((g2Of group_by sources).map Prod.snd).flatten ++ radioList sources) := by
    unfold g3Of
    by_cases h : (radioList sources).isEmpty
    · rw [if_pos h, List.isEmpty_iff.mp h, List.append_nil]
    · rw [if_neg h]
      exact flatten_map_snd_extend_to _ _ _
  refine ⟨?_, ?_, ?_, ?_⟩
  · rw [heq]
    refine (flatten_map_snd_sort _).trans (h3.trans ?_)
    refine ((h2.append_right _).trans ?_)
    refine ((((h1.append_right _).append_right _)).trans ?_)
    exact media_filter_three_perm sources
  · intro s hs hsa
    have hmem : s ∈ audioList sources :=
      List.mem_filter.mpr ⟨hs, by simp [hsa]⟩
    have hne : ¬ ((audioList sources).isEmpty = true) := by
      rw [List.isEmpty_iff]
      exact List.ne_nil_of_mem hmem
    obtain ⟨l0, hl0⟩ :=
      lookup_extend_to_self (g1Of group_by sources) "在线音频" (audioList sources)
    have hg2 : (g2Of group_by sources).lookup "在线音频"
        = some (l0 ++ audioList sources) := by
      unfold g2Of
      rw [if_neg hne]
      exact hl0
    have hg3 : (g3Of group_by sources).lookup "在线音频"
        = some (l0 ++ audioList sources) := by
      unfold g3Of
      by_cases h : (radioList sources).isEmpty
      · rw [if_pos h]; exact hg2
      · rw [if_neg h, lookup_extend_to_ne _ _ _ _ (by decide)]
        exact hg2
    rw [heq, lookup_map_sort, hg3]
    refine ⟨_, rfl, ?_⟩
    exact ((sort_group_perm _ _).mem_iff).mpr (List.mem_append.mpr (Or.inr hmem))
  · intro s hs hsr
    have hmem : s ∈ radioList sources :=
      List.mem_filter.mpr ⟨hs, by simp [hsr]⟩
    have hne : ¬ ((radioList sources).isEmpty = true) := by
      rw [List.isEmpty_iff]
      exact List.ne_nil_of_mem hmem
    obtain ⟨l0, hl0⟩ :=
      lookup_extend_to_self (g2Of group_by sources) "收音机" (radioList sources)
    have hg3 : (g3Of group_by sources).lookup "收音机"
        = some (l0 ++ radioList sources) := by
      unfold g3Of
      rw [if_neg hne]
      exact hl0
    rw [heq, lookup_map_sort, hg3]
    refine ⟨_, rfl, ?_⟩
    exact ((sort_group_perm _ _).mem_iff).mpr (List.mem_append.mpr (Or.inr hmem))
  · intro kv hkv hne1 hne2 s hsm
    rw [heq] at hkv
    obtain ⟨kv0, hkv0, hkveq⟩ := List.mem_map.mp hkv
    have hk1 : kv.1 = kv0.1 := by rw [← hkveq]
    have hk2 : kv.2 = EnhancedM3UGenerator.sort_group kv0.1 kv0.2 := by rw [← hkveq]
    have hsm0 : s ∈ kv0.2 := by
      rw [hk2] at hsm
      exact (sort_group_perm _ _).subset hsm
    have hkv2 : kv0 ∈ g2Of group_by sources := by
      unfold g3Of at hkv0
      by_cases h : (radioList sources).isEmpty
      · rw [if_pos h] at hkv0; exact hkv0
      · rw [if_neg h] at hkv0
        rcases mem_extend_to _ _ _ _ hkv0 with hA | hA
        · exact hA
        · exact absurd (hk1.trans hA) hne2
    have hkv1 : kv0 ∈ g1Of group_by sources := by
      unfold g2Of at hkv2
      by_cases h : (audioList sources).isEmpty
      · rw [if_pos h] at hkv2; exact hkv2
      · rw [if_neg h] at hkv2
        rcases mem_extend_to _ _ _ _ hkv2 with hA | hA
        · exact hA
        · exact absurd (hk1.trans hA) hne1
    have hP := fold_add_to_preserve
      (fun t => mediaTypeD t ≠ "audio" ∧ mediaTypeD t ≠ "radio")
      (fun s => EnhancedM3UGenerator.get_group_key s group_by)
      (videoList sources) [] (by simp)
      (fun x hx => by
        have := (List.mem_filter.mp hx).2
        constructor
        · intro hc; rw [hc] at this; simp at this
        · intro hc; rw [hc] at this; simp at this)
    exact hP kv0 hkv1 s hsm0

def c9_audio : Rec :=
  { name := "音乐之声", url := "http://e/am", status := some "success",
    media_type := some "audio", response_time := some 120 }

def c9_radio : Rec :=
  { name := "FM103.9 交通广播", url := "http://e/fm", status := some "success",
    media_type := some "radio", response_time := some 90 }

def c9_video : Rec :=
  { name := "CCTV-1 综合", url := "http://e/tv", status := some "success",
    media_type := some "video", resolution := some "1920x1080",
    response_time := some 800, category := some "央视频道" }

/-- Witness for C9 on a concrete mixed input under `group_by = 'category'`. -/
theorem enhanced_group_and_sort_complete_witness :
    ((((EnhancedM3UGenerator.enhanced_group_and_sort_sources "category"
        [c9_audio, c9_radio, c9_video] "base").map Prod.snd).flatten).Perm
      [c9_audio, c9_radio, c9_video]) :=
  (enhanced_group_and_sort_complete "category" "base"
    [c9_audio, c9_radio, c9_video]).1

/-! ## Claim C10: the two `normalize_url` implementations

Both normalizers are built from Python's `urllib.parse`
(`urlparse` / `parse_qs` / `urlencode` / `urlunparse`), which is modelled
below at the fidelity these call sites exercise: scheme/netloc/path/params/
query/fragment splitting as in CPython `urlsplit`+`urlparse` (including the
unbalanced-bracket `ValueError`, modelled as `none` and caught by the
normalizers' `except` clause), `&`-separated query pairs with `+` and `%XX`
quoting at byte level.  CPython decodes `%XX` runs above 0x7F as UTF-8 byte
sequences; the model maps each such byte to the code point of the same value,
which coincides on the ASCII inputs these cache keys are built from.  Both
normalizers share these helpers, mirroring their shared stdlib. -/

namespace Urllib

structure ParseResult where
  scheme : String
  netloc : String
  path : String
  params : String
  query : String
  fragment : String
deriving DecidableEq

/-- Split at the first occurrence of `c` (Python `str.split(c, 1)` /
`str.find`). -/
def splitFirst (c : Char) : List Char → Option (List Char × List Char)
  | [] => none
  | a :: t =>
    if a = c then some ([], t)
    else (splitFirst c t).map (fun p => (a :: p.1, p.2))

/-- Split at the last occurrence of `c` (Python `str.rfind`). -/
def splitLast (c : Char) (l : List Char) : Option (List Char × List Char) :=
  match splitFirst c l.reverse with
  | some (rsuf, rpre) => some (rpre.reverse, rsuf.reverse)
  | none => none

/-- CPython `scheme_chars`: letters, digits, `+`, `-`, `.`. -/
def isSchemeChar (c : Char) : Bool :=
  c.isAlphanum || c = '+' || c = '-' || c = '.'

/-- The scheme-recognition step of CPython `urlsplit`: a non-empty run of
scheme characters starting with an ASCII letter before the first `:`. -/
def splitScheme (l : List Char) : String × List Char :=
  match splitFirst ':' l with
  | some (before, after) =>
    if h : before ≠ [] then
      if (before.head h).isAlpha && before.all isSchemeChar then
        (⟨before.map Char.toLower⟩, after)
      else ("", l)
    else ("", l)
  | none => ("", l)

/-- CPython `_splitnetloc`: the netloc extends to the first `/`, `?` or `#`. -/
def takeNetloc : List Char → List Char × List Char
  | [] => ([], [])
  | a :: t =>
    if a = '/' || a = '?' || a = '#' then ([], a :: t)
    else
      let p := takeNetloc t
      (a :: p.1, p.2)

/-- CPython `urlsplit` (params left empty): `none` models the `ValueError`
raised on a netloc with unbalanced square brackets. -/
def urlsplit (url : String) : Option ParseResult :=
  let l := url.data
  let sp := splitScheme l
  let np :=
    match sp.2 with
    | '/' :: '/' :: rest => takeNetloc rest
    | rest => ([], rest)
  if (np.1.contains '[' && !(np.1.contains ']'))
      || (np.1.contains ']' && !(np.1.contains '[')) then none
  else
    let fp :=
      match splitFirst '#' np.2 with
      | some p => p
      | none => (np.2, [])
    let qp :=
      match splitFirst '?' fp.1 with
      | some p => p
      | none => (fp.1, [])
    some { scheme := sp.1, netloc := ⟨np.1⟩, path := ⟨qp.1⟩, params := "",
           query := ⟨qp.2⟩, fragment := ⟨fp.2⟩ }

/-- CPython `uses_params`. -/
def uses_params : List String :=
  ["", "ftp", "hdl", "prospero", "http", "imap", "https", "shttp", "rtsp",
   "rtspu", "sip", "sips", "mms", "sftp", "tel"]

/-- CPython `_splitparams`: split the params off the last path segment. -/
def splitParams (l : List Char) : List Char × List Char :=
  if l.contains '/' then
    match splitLast '/' l with
    | some pr =>
      match splitFirst ';' pr.2 with
      | some ab => (pr.1 ++ '/' :: ab.1, ab.2)
      | none => (l, [])
    | none => (l, [])
  else
    match splitFirst ';' l with
    | some ab => (ab.1, ab.2)
    | none => (l, [])

/-- CPython `urlparse`. -/
def urlparse (url : String) : Option ParseResult :=
  (urlsplit url).map (fun s =>
    if uses_params.contains s.scheme && s.path.data.contains ';' then
      let pp := splitParams s.path.data
      { s with path := ⟨pp.1⟩, params := ⟨pp.2⟩ }
    else s)

def hexVal (c : Char) : Option Nat :=
  if c.isDigit then some (c.toNat - 48)
  else if 'A' ≤ c ∧ c ≤ 'F' then some (c.toNat - 55)
  else if 'a' ≤ c ∧ c ≤ 'f' then some (c.toNat - 87)
  else none

/-- CPython `unquote_plus` at byte granularity (see the namespace comment). -/
def unquotePlusChars : List Char → List Char
  | [] => []
  | '+' :: t => ' ' :: unquotePlusChars t
  | '%' :: a :: b :: t =>
    match hexVal a, hexVal b with
    | some x, some y => Char.ofNat (x * 16 + y) :: unquotePlusChars t
    | _, _ => '%' :: unquotePlusChars (a :: b :: t)
  | c :: t => c :: unquotePlusChars t

def unquotePlus (s : String) : String := ⟨unquotePlusChars s.data⟩

def utf8Bytes (c : Char) : List Nat :=
  let n := c.toNat
  if n < 0x80 then [n]
  else if n < 0x800 then [0xC0 + n / 0x40, 0x80 + n % 0x40]
  else if n < 0x10000 then
    [0xE0 + n / 0x1000, 0x80 + (n / 0x40) % 0x40, 0x80 + n % 0x40]
  else
    [0xF0 + n / 0x40000, 0x80 + (n / 0x1000) % 0x40, 0x80 + (n / 0x40) % 0x40,
     0x80 + n % 0x40]

def hexDigit (n : Nat) : Char :=
  if n < 10 then Char.ofNat (48 + n) else Char.ofNat (55 + n)

/-- CPython `quote_plus` with the default safe set (`_ALWAYS_SAFE` minus
nothing): alphanumerics and `_.-~` kept, space to `+`, everything else
percent-encoded per UTF-8 byte. -/
def quotePlusChar (c : Char) : List Char :=
  if c.isAlphanum || c = '_' || c = '.' || c = '-' || c = '~' then [c]
  else if c = ' ' then ['+']
  else ((utf8Bytes c).map (fun b => ['%', hexDigit (b / 16), hexDigit (b % 16)])).flatten

def quotePlus (s : String) : String := ⟨(s.data.map quotePlusChar).flatten⟩

/-- CPython `parse_qsl` with default arguments: pairs without `=` or with an
empty value are dropped, names and values are unquoted. -/
def parse_qsl (qs : String) : List (String × String) :=
  (splitOnChar '&' qs.data).foldl (fun acc nv =>
    match nv with
    | [] => acc
    | _ =>
      match splitFirst '=' nv with
      | none => acc
      | some p =>
        if p.2 = [] then acc
        else acc ++ [(unquotePlus ⟨p.1⟩, unquotePlus ⟨p.2⟩)]) []

/-- CPython `parse_qs`: the `parse_qsl` pairs accumulated into an
insertion-ordered dict of value lists. -/
def parse_qs (qs : String) : List (String × List String) :=
  (parse_qsl qs).foldl (fun d kv => add_to d kv.1 kv.2) []

/-- CPython `urlencode` with `doseq=True` over a dict of string lists. -/
def urlencode (query : List (String × List String)) : String :=
  ⟨List.intercalate ['&']
    ((query.map (fun kv =>
      kv.2.map (fun v => (quotePlus kv.1).data ++ '=' :: (quotePlus v).data))).flatten)⟩

/-- CPython `urlunsplit`. -/
def urlunsplit (scheme netloc path query fragment : String) : String :=
  let url := path.data
  let url :=
    if netloc ≠ "" ∨ (url ≠ [] ∧ url.take 2 = ['/', '/']) then
      let url2 := if url ≠ [] ∧ url.head? ≠ some '/' then '/' :: url else url
      '/' :: '/' :: (netloc.data ++ url2)
    else url
  let url := if scheme ≠ "" then scheme.data ++ ':' :: url else url
  let url := if query ≠ "" then url ++ '?' :: query.data else url
  let url := if fragment ≠ "" then url ++ '#' :: fragment.data else url
  ⟨url⟩

/-- CPython `urlunparse`. -/
def urlunparse (p : ParseResult) : String :=
  let u := if p.params ≠ "" then p.path ++ ";" ++ p.params else p.path
  urlunsplit p.scheme p.netloc u p.query p.fragment

end Urllib

namespace StreamTester

/-- The volatile query parameters stripped by
`StreamTester.normalize_url` (src/app/stream_tester.py:870). -/
def dynamic_params : List String :=
  ["t", "time", "timestamp", "r", "random", "nonce", "token"]

/-- `StreamTester.normalize_url` (src/app/stream_tester.py:849-892); the
`except` clause returning the original URL catches the parse failure. -/
def normalize_url (url : String) : String :=
  match Urllib.urlparse url with
  | none => url
  | some p =>
    let qp := Urllib.parse_qs p.query
    let filtered := qp.filter (fun kv => !(dynamic_params.contains kv.1))
    Urllib.urlunparse { p with query := Urllib.urlencode filtered }

end StreamTester

namespace MainPy

/-- The volatile query parameters stripped by the `normalize_url` embedded in
src/app/main.py:1871 — `nonce` and `token` are missing from this list. -/
def dynamic_params : List String := ["t", "time", "timestamp", "r", "random"]

/-- `StreamTester.normalize_url` as duplicated in src/app/main.py:1862-1886. -/
def normalize_url (url : String) : String :=
  match Urllib.urlparse url with
  | none => url
  | some p =>
    let qp := Urllib.parse_qs p.query
    let filtered := qp.filter (fun kv => !(dynamic_params.contains kv.1))
    Urllib.urlunparse { p with query := Urllib.urlencode filtered }

end MainPy

/-- The query component the normalizers run `parse_qs` over (empty when the
URL does not parse). -/
def queryOf (url : String) : String :=
  match Urllib.urlparse url with
  | some p => p.query
  | none => ""

/-- Counterexample for C10: the two duplicated `normalize_url`
implementations are NOT the same function — stream_tester.py strips the
`token` (and `nonce`) query parameter, main.py keeps it. -/
theorem normalize_url_divergence :
    StreamTester.normalize_url "http://example.com/live?token=abc"
      = "http://example.com/live" ∧
    MainPy.normalize_url "http://example.com/live?token=abc"
      = "http://example.com/live?token=abc" := by
  constructor <;> rfl

/-- C10 (amended): the two implementations agree on every URL whose parsed
query contains neither a `nonce` nor a `token` parameter; they differ exactly
in that main.py's variant retains those two parameters (its volatile-parameter
list is `['t','time','timestamp','r','random']`, stream_tester.py's adds
`'nonce'` and `'token'`); both fall back to the original URL on parse
failure. -/
theorem normalize_url_agree_without_nonce_token (url : String)
    (h : ∀ kv ∈ Urllib.parse_qs (queryOf url), kv.1 ≠ "nonce" ∧ kv.1 ≠ "token") :
    StreamTester.normalize_url url = MainPy.normalize_url url := by
  unfold StreamTester.normalize_url MainPy.normalize_url
  cases hp : Urllib.urlparse url with
  | none => rfl
  | some p =>
    have hq : queryOf url = p.query := by
      unfold queryOf
      rw [hp]
    rw [hq] at h
    have hfil : (Urllib.parse_qs p.query).filter
          (fun kv => !(StreamTester.dynamic_params.contains kv.1))
        = (Urllib.parse_qs p.query).filter
          (fun kv => !(MainPy.dynamic_params.contains kv.1)) := by
      apply List.filter_congr
      intro kv hkv
      obtain ⟨hn, ht⟩ := h kv hkv
      simp [StreamTester.dynamic_params, MainPy.dynamic_params, List.contains,
        hn, ht]
    simp only [hfil]

/-- Witness for C10's amended agreement at a URL carrying a stripped (`t`)
and a kept (`id`) parameter. -/
theorem normalize_url_agree_witness :
    StreamTester.normalize_url "http://example.com/live?t=1&id=5"
      = MainPy.normalize_url "http://example.com/live?t=1&id=5" :=
  normalize_url_agree_without_nonce_token "http://example.com/live?t=1&id=5"
    (by decide)

/-! ## Probing with the TTL cache (src/app/stream_tester.py:232-294, 929-992) -/

/-- `Config.get_testing_params` fallbacks (src/app/config_manager.py:243-252
and the identical values in src/app/main.py:243-252). -/
structure TestingParams where
  timeout : Int := 10
  concurrent_threads : Nat := 20
  cache_ttl : Nat := 120
  enable_speed_test : Bool := true
  speed_test_duration : Int := 5
  max_workers : Nat := 50
deriving DecidableEq

/-- One entry of the module-level `_url_cache` dict
(src/app/stream_tester.py:956-969): the probe status, latency, the remaining
metadata keys, and the store time (modelled in milliseconds). -/
structure CacheEntry where
  status : String
  response_time : Option Int
  metadata : Meta
  timestamp : Nat
deriving DecidableEq

abbrev Cache := List (String × CacheEntry)

/-- Python dict assignment `_url_cache[key] = entry`. -/
def insert_entry (c : Cache) (k : String) (e : CacheEntry) : Cache :=
  match c with
  | [] => [(k, e)]
  | kv :: rest => if kv.1 = k then (k, e) :: rest else kv :: insert_entry rest k e

/-- Python `del _url_cache[key]`. -/
def erase_entry (c : Cache) (k : String) : Cache :=
  c.filter (fun kv => !(kv.1 == k))

/-- One entry of the ffprobe `streams` array, restricted to the keys the
modelled metadata extraction reads. -/
structure FfStream where
  codec_type : Option String := none
  width : Option Int := none
  height : Option Int := none
deriving DecidableEq

/-- The parsed ffprobe JSON tree: the container-level `format.bit_rate`
string and the `streams` array. -/
structure FfData where
  bit_rate : Option String := none
  streams : List FfStream := []
deriving DecidableEq

namespace StreamTester

/-- `StreamTester._extract_video_stream_info` (src/app/stream_tester.py:491-540)
restricted to the modelled keys: resolution and the HD/4K flags are set only
when both dimensions are truthy (non-zero). -/
def extract_video_info (st : FfStream) (m : Meta) : Meta :=
  let w := st.width.getD 0
  let h := st.height.getD 0
  if w ≠ 0 ∧ h ≠ 0 then
    { m with resolution := some (toString w ++ "x" ++ toString h),
             is_hd := some (decide (h ≥ 720)), is_4k := some (decide (h ≥ 2160)) }
  else m

/-- `StreamTester.extract_metadata` (src/app/stream_tester.py:371-489) on the
modelled keys: the initialised defaults, the container bitrate
(`int(bit_rate) // 1000`, parse failures ignored), and the per-stream video /
audio updates.  The trailing "main video stream" block only fires when every
video stream failed the truthy-dimensions guard, in which case it re-checks
the same guard on the first stream and changes nothing. -/
def extract_metadata (data : FfData) : Meta :=
  let base : Meta :=
    { resolution := some "", bitrate := some 0, is_hd := some false,
      is_4k := some false, has_video_stream := some false,
      has_audio_stream := some false, media_type := some "unknown" }
  let base :=
    match data.bit_rate with
    | some s =>
      match intOfString s with
      | some v => { base with bitrate := some (Int.fdiv v 1000) }
      | none => base
    | none => base
  data.streams.foldl (fun m st =>
    match st.codec_type with
    | some "video" => extract_video_info st { m with has_video_stream := some true }
    | some "audio" => { m with has_audio_stream := some true }
    | _ => m) base

/-- What the external world does to one ffprobe invocation
(src/app/stream_tester.py:312-369): a clean run hands back the parsed JSON
tree, every failure mode is distinguished by the exception / exit path the
code takes. -/
inductive ProbeOutcome where
  | ok (data : FfData)
  | exitNonzero (err : String)
  | timedOut
  | badJson
  | raised (msg : String)
deriving DecidableEq

/-- `StreamTester.test_stream_url` (src/app/stream_tester.py:296-369) as a
function of the subprocess outcome. -/
def test_stream_url (outcome : ProbeOutcome) : String × Meta :=
  match outcome with
  | .ok data =>
    if data.streams.length > 0 then ("success", extract_metadata data)
    else ("failed", { error_reason := some "no_valid_streams" })
  | .exitNonzero err => ("failed", { error_reason := some ("ffprobe_error: " ++ err) })
  | .timedOut => ("timeout", { error_reason := some "timeout" })
  | .badJson => ("failed", { error_reason := some "json_parse_error" })
  | .raised m => ("failed", { error_reason := some ("exception: " ++ m) })

/-- `StreamTester._check_network_compatibility`
(src/app/stream_tester.py:894-912): a URL carrying both IPv6 brackets is
skipped when the host lacks IPv6 support. -/
def network_compatible (url : String) (ipv6_supported : Bool) : Bool :=
  if containsSub url "[" && containsSub url "]" then ipv6_supported else true

/-- `StreamTester._get_cached_result` (src/app/stream_tester.py:929-954):
a live entry is returned as-is, an expired entry is deleted.  Time is in
milliseconds, `cache_ttl` in minutes. -/
def get_cached_result (cache_ttl : Nat) (now : Nat) (cache : Cache) (key : String) :
    Option CacheEntry × Cache :=
  match cache.lookup key with
  | some e =>
    if now - e.timestamp < cache_ttl * 60000 then (some e, cache)
    else (none, erase_entry cache key)
  | none => (none, cache)

/-- `{**source, 'status': st, 'response_time': rt, **metadata}` — the shape of
every value `test_single_stream` returns. -/
def result_of_parts (source : Rec) (st : String) (rt : Option Int) (m : Meta) : Rec :=
  apply_meta { source with status := some st, response_time := rt } m

/-- The per-call environment of one `test_single_stream` invocation: the
wall clock at entry, the ffprobe outcome, the measured elapsed milliseconds,
the download-speed sample, and the IPv6 capability. -/
structure ProbeEnv where
  now : Nat
  outcome : ProbeOutcome
  elapsed_ms : Int
  speed : Int
  ipv6_supported : Bool
deriving DecidableEq

/-- The metadata dict as completed on the probe path of
`test_single_stream` (src/app/stream_tester.py:274-282): on success the
download-speed sample (when enabled) and the derived media type are added. -/
def probe_meta (tp : TestingParams) (env : ProbeEnv) : Meta :=
  let tm := test_stream_url env.outcome
  if tm.1 = "success" then
    let m1 :=
      if tp.enable_speed_test then { tm.2 with download_speed := some env.speed }
      else tm.2
    { m1 with media_type := some (determine_media_type m1) }
  else tm.2

/-- The cache entry `_cache_result` stores for one probe
(src/app/stream_tester.py:956-969). -/
def probe_entry (tp : TestingParams) (env : ProbeEnv) : CacheEntry :=
  { status := (test_stream_url env.outcome).1,
    response_time := some env.elapsed_ms,
    metadata := probe_meta tp env,
    timestamp := env.now }

/-- The cache-miss probing path of `test_single_stream`
(src/app/stream_tester.py:269-294): run ffprobe, complete the metadata, cache
the outcome, return the merged result; the Boolean records that the
subprocess was invoked. -/
def probe_path (tp : TestingParams) (env : ProbeEnv) (cache1 : Cache)
    (source : Rec) (cache_key : String) : Rec × Cache × Bool :=
  (result_of_parts source (test_stream_url env.outcome).1 (some env.elapsed_ms)
     (probe_meta tp env),
   insert_entry cache1 cache_key (probe_entry tp env), true)

/-- `StreamTester.test_single_stream` (src/app/stream_tester.py:232-294),
returning the merged result, the cache after the call, and whether the
external ffprobe subprocess was invoked. -/
def test_single_stream (tp : TestingParams) (env : ProbeEnv) (cache : Cache)
    (source : Rec) : Rec × Cache × Bool :=
  let cache_key := normalize_url source.url
  let gc := get_cached_result tp.cache_ttl env.now cache cache_key
  match gc.1 with
  | some e => (result_of_parts source e.status e.response_time e.metadata, gc.2, false)
  | none =>
    if ¬ (network_compatible source.url env.ipv6_supported = true) then
      ({ source with status := some "failed", response_time := none,
                     is_qualified := some false,
                     error_reason := some "network_incompatible" }, gc.2, false)
    else probe_path tp env gc.2 source cache_key

end StreamTester

lemma lookup_insert_entry_self (c : Cache) (k : String) (e : CacheEntry) :
    (insert_entry c k e).lookup k = some e := by
  induction c with
  | nil => simp [insert_entry, List.lookup]
  | cons kv rest ih =>
    by_cases h : kv.1 = k
    · simp [insert_entry, h, List.lookup]
    · simp [insert_entry, h, List.lookup, beq_false_of_ne (fun hk => h hk.symm), ih]

lemma StreamTester.get_cached_result_insert_fresh (ttl now2 : Nat) (c : Cache)
    (k : String) (e : CacheEntry) (h : now2 - e.timestamp < ttl * 60000) :
    StreamTester.get_cached_result ttl now2 (insert_entry c k e) k
      = (some e, insert_entry c k e) := by
  unfold StreamTester.get_cached_result
  rw [lookup_insert_entry_self]
  simp [h]

/-! ## Claim C3 -/

/-- C3: probing the same URL twice within the cache TTL window is idempotent.
If the first call actually ran the ffprobe subprocess (and hence stored its
outcome in the cache), then a second call on the same source whose clock
still lies inside the TTL window returns exactly the same merged result —
status, response time and every metadata key — and does not invoke the
subprocess. -/
theorem test_single_stream_idempotent (tp : TestingParams)
    (env1 env2 : StreamTester.ProbeEnv) (cache : Cache) (source : Rec)
    (hprobe : (StreamTester.test_single_stream tp env1 cache source).2.2 = true)
    (hfresh : env2.now - env1.now < tp.cache_ttl * 60000) :
    (StreamTester.test_single_stream tp env2
        (StreamTester.test_single_stream tp env1 cache source).2.1 source).1
      = (StreamTester.test_single_stream tp env1 cache source).1 ∧
    (StreamTester.test_single_stream tp env2
        (StreamTester.test_single_stream tp env1 cache source).2.1 source).2.2
      = false := by
  cases h1 : (StreamTester.get_cached_result tp.cache_ttl env1.now cache
      (StreamTester.normalize_url source.url)).1 with
  | some e =>
    exfalso
    have hf : (StreamTester.test_single_stream tp env1 cache source).2.2 = false := by
      simp only [StreamTester.test_single_stream]
      rw [h1]
    rw [hf] at hprobe
    exact Bool.false_ne_true hprobe
  | none =>
    by_cases h2 : StreamTester.network_compatible source.url env1.ipv6_supported = true
    · have hcall1 : StreamTester.test_single_stream tp env1 cache source
          = StreamTester.probe_path tp env1
              (StreamTester.get_cached_result tp.cache_ttl env1.now cache
                (StreamTester.normalize_url source.url)).2 source
              (StreamTester.normalize_url source.url) := by
        simp only [StreamTester.test_single_stream]
        rw [h1]
        simp [h2]
      rw [hcall1]
      have hc2 := StreamTester.get_cached_result_insert_fresh tp.cache_ttl env2.now
        (StreamTester.get_cached_result tp.cache_ttl env1.now cache
          (StreamTester.normalize_url source.url)).2
        (StreamTester.normalize_url source.url)
        (StreamTester.probe_entry tp env1) hfresh
      constructor
      · simp only [StreamTester.test_single_stream, StreamTester.probe_path]
        rw [hc2]
        simp [StreamTester.probe_entry]
      · simp only [StreamTester.test_single_stream, StreamTester.probe_path]
        rw [hc2]
    · exfalso
      have hf : (StreamTester.test_single_stream tp env1 cache source).2.2 = false := by
        simp only [StreamTester.test_single_stream]
        rw [h1]
        simp [h2]
      rw [hf] at hprobe
      exact Bool.false_ne_true hprobe

def c3_tp : TestingParams := {}

def c3_env1 : StreamTester.ProbeEnv :=
  { now := 1000, outcome := .exitNonzero "connection refused", elapsed_ms := 42,
    speed := 0, ipv6_supported := true }

def c3_env2 : StreamTester.ProbeEnv := { c3_env1 with now := 5000 }

def c3_src : Rec := { name := "CCTV-1 综合", url := "http://h/p?t=9&id=1" }

/-- Witness for C3 at a concrete probe 4 seconds apart (TTL 120 min). -/
theorem test_single_stream_idempotent_witness :
    (StreamTester.test_single_stream c3_tp c3_env2
        (StreamTester.test_single_stream c3_tp c3_env1 [] c3_src).2.1 c3_src).1
      = (StreamTester.test_single_stream c3_tp c3_env1 [] c3_src).1 ∧
    (StreamTester.test_single_stream c3_tp c3_env2
        (StreamTester.test_single_stream c3_tp c3_env1 [] c3_src).2.1 c3_src).2.2
      = false :=
  test_single_stream_idempotent c3_tp c3_env1 c3_env2 [] c3_src
    (by decide) (by decide)

/-! ## Claim C4 -/

/-- The claim's invariant on one merged result: a non-success status implies
zero bitrate and empty resolution (under the `.get` defaults every reader
applies). -/
def result_inv (r : Rec) : Prop :=
  statusD r ≠ "success" → bitrateD r = 0 ∧ resolutionD r = ""

/-- The same invariant on a stored cache entry. -/
def entry_inv (e : CacheEntry) : Prop :=
  e.status ≠ "success" →
    e.metadata.bitrate.getD 0 = 0 ∧ e.metadata.resolution.getD "" = ""

def cache_inv (c : Cache) : Prop := ∀ kv ∈ c, entry_inv kv.2

lemma exists_mem_of_lookup (c : Cache) (k : String) (e : CacheEntry)
    (h : c.lookup k = some e) : ∃ a, (a, e) ∈ c := by
  induction c with
  | nil => simp [List.lookup] at h
  | cons kv rest ih =>
    rcases kv with ⟨a, b⟩
    by_cases hk : k = a
    · subst hk
      simp [List.lookup] at h
      exact ⟨k, by rw [← h]; exact List.mem_cons_self _ _⟩
    · rw [List.lookup, beq_false_of_ne hk] at h
      rcases ih h with ⟨a2, ha2⟩
      exact ⟨a2, List.mem_cons_of_mem _ ha2⟩

lemma mem_insert_entry (c : Cache) (k : String) (e : CacheEntry)
    (kv : String × CacheEntry) (h : kv ∈ insert_entry c k e) :
    kv ∈ c ∨ kv = (k, e) := by
  induction c with
  | nil =>
    simp only [insert_entry, List.mem_singleton] at h
    exact Or.inr h
  | cons kv0 rest ih =>
    by_cases h0 : kv0.1 = k
    · simp only [insert_entry, if_pos h0, List.mem_cons] at h
      rcases h with h | h
      · exact Or.inr h
      · exact Or.inl (List.mem_cons_of_mem _ h)
    · simp only [insert_entry, if_neg h0, List.mem_cons] at h
      rcases h with h | h
      · exact Or.inl (h ▸ List.mem_cons_self _ _)
      · rcases ih h with h | h
        · exact Or.inl (List.mem_cons_of_mem _ h)
        · exact Or.inr h

lemma cache_inv_erase (c : Cache) (k : String) (hc : cache_inv c) :
    cache_inv (erase_entry c k) :=
  fun kv hkv => hc kv (List.mem_filter.mp hkv).1

lemma cache_inv_insert (c : Cache) (k : String) (e : CacheEntry)
    (hc : cache_inv c) (he : entry_inv e) : cache_inv (insert_entry c k e) := by
  intro kv hkv
  rcases mem_insert_entry c k e kv hkv with h | h
  · exact hc kv h
  · rw [h]
    exact he

lemma cache_inv_gc (ttl now : Nat) (c : Cache) (k : String) (hc : cache_inv c) :
    cache_inv ((StreamTester.get_cached_result ttl now c k).2) := by
  unfold StreamTester.get_cached_result
  cases h : c.lookup k with
  | none => exact hc
  | some e =>
    by_cases hfr : now - e.timestamp < ttl * 60000
    · simp only [if_pos hfr]
      exact hc
    · simp only [if_neg hfr]
      exact cache_inv_erase c k hc

lemma get_cached_result_fst_mem (ttl now : Nat) (c : Cache) (k : String)
    (e : CacheEntry)
    (h : (StreamTester.get_cached_result ttl now c k).1 = some e) :
    ∃ a, (a, e) ∈ c := by
  unfold StreamTester.get_cached_result at h
  split at h
  case h_1 e2 heq =>
    split at h
    · simp only [Option.some.injEq] at h
      exact h ▸ exists_mem_of_lookup c k e2 heq
    · simp at h
  case h_2 => simp at h

lemma test_stream_url_failure_meta (o : StreamTester.ProbeOutcome)
    (h : (StreamTester.test_stream_url o).1 ≠ "success") :
    (StreamTester.test_stream_url o).2.bitrate = none ∧
    (StreamTester.test_stream_url o).2.resolution = none := by
  cases o with
  | ok data =>
    by_cases hs : data.streams.length > 0
    · exact absurd (by simp [StreamTester.test_stream_url, hs]) h
    · simp [StreamTester.test_stream_url, hs]
  | exitNonzero err => simp [StreamTester.test_stream_url]
  | timedOut => simp [StreamTester.test_stream_url]
  | badJson => simp [StreamTester.test_stream_url]
  | raised m => simp [StreamTester.test_stream_url]

lemma statusD_result_of_parts (s : Rec) (st : String) (rt : Option Int) (m : Meta) :
    statusD (StreamTester.result_of_parts s st rt m) = st := by
  simp [StreamTester.result_of_parts, apply_meta, statusD]

lemma bitrateD_result_of_parts (s : Rec) (st : String) (rt : Option Int) (m : Meta)
    (h : s.bitrate = none) :
    bitrateD (StreamTester.result_of_parts s st rt m) = m.bitrate.getD 0 := by
  cases hm : m.bitrate <;>
    simp [StreamTester.result_of_parts, apply_meta, ov, bitrateD, h, hm]

lemma resolutionD_result_of_parts (s : Rec) (st : String) (rt : Option Int) (m : Meta)
    (h : s.resolution = none) :
    resolutionD (StreamTester.result_of_parts s st rt m) = m.resolution.getD "" := by
  cases hm : m.resolution <;>
    simp [StreamTester.result_of_parts, apply_meta, ov, resolutionD, h, hm]

/-- C4: every result a probe attempt produces for a fresh candidate (one
carrying no earlier probe keys) satisfies: non-success status implies
bitrate 0 and empty resolution — and the invariant is maintained for every
entry the call leaves in the cache, so cache-served results satisfy it too.
(`response_time` is unconstrained, matching the claim's allowance for a
partial latency measurement.) -/
theorem probe_nonsuccess_zero_quality (tp : TestingParams)
    (env : StreamTester.ProbeEnv) (cache : Cache) (source : Rec)
    (hres : source.resolution = none) (hbr : source.bitrate = none)
    (hc : cache_inv cache) :
    result_inv (StreamTester.test_single_stream tp env cache source).1 ∧
    cache_inv (StreamTester.test_single_stream tp env cache source).2.1 := by
  cases h1 : (StreamTester.get_cached_result tp.cache_ttl env.now cache
      (StreamTester.normalize_url source.url)).1 with
  | some e =>
    rcases get_cached_result_fst_mem _ _ _ _ _ h1 with ⟨a, hae⟩
    have he : entry_inv e := hc (a, e) hae
    have hcall : StreamTester.test_single_stream tp env cache source
        = (StreamTester.result_of_parts source e.status e.response_time e.metadata,
           (StreamTester.get_cached_result tp.cache_ttl env.now cache
             (StreamTester.normalize_url source.url)).2, false) := by
      simp only [StreamTester.test_single_stream]
      rw [h1]
    rw [hcall]
    constructor
    · intro hst
      rw [statusD_result_of_parts] at hst
      obtain ⟨hb, hr⟩ := he hst
      exact ⟨by rw [bitrateD_result_of_parts _ _ _ _ hbr]; exact hb,
             by rw [resolutionD_result_of_parts _ _ _ _ hres]; exact hr⟩
    · exact cache_inv_gc _ _ _ _ hc
  | none =>
    by_cases h2 : StreamTester.network_compatible source.url env.ipv6_supported = true
    · have hcall : StreamTester.test_single_stream tp env cache source
          = StreamTester.probe_path tp env
              (StreamTester.get_cached_result tp.cache_ttl env.now cache
                (StreamTester.normalize_url source.url)).2 source
              (StreamTester.normalize_url source.url) := by
        simp only [StreamTester.test_single_stream]
        rw [h1]
        simp [h2]
      rw [hcall]
      constructor
      · intro hst
        simp only [StreamTester.probe_path] at hst ⊢
        rw [statusD_result_of_parts] at hst
        have hm := test_stream_url_failure_meta env.outcome hst
        have hmeta : StreamTester.probe_meta tp env
            = (StreamTester.test_stream_url env.outcome).2 := by
          unfold StreamTester.probe_meta
          rw [if_neg hst]
        constructor
        · rw [bitrateD_result_of_parts _ _ _ _ hbr, hmeta, hm.1]
          rfl
        · rw [resolutionD_result_of_parts _ _ _ _ hres, hmeta, hm.2]
          rfl
      · simp only [StreamTester.probe_path]
        refine cache_inv_insert _ _ _ (cache_inv_gc _ _ _ _ hc) ?_
        intro hst
        have hst' : (StreamTester.test_stream_url env.outcome).1 ≠ "success" := hst
        have hm := test_stream_url_failure_meta env.outcome hst'
        have hmeta : StreamTester.probe_meta tp env
            = (StreamTester.test_stream_url env.outcome).2 := by
          unfold StreamTester.probe_meta
          rw [if_neg hst']
        constructor
        · simp [StreamTester.probe_entry, hmeta, hm.1]
        · simp [StreamTester.probe_entry, hmeta, hm.2]
    · have hcall : StreamTester.test_single_stream tp env cache source
          = ({ source with status := some "failed", response_time := none,
                           is_qualified := some false,
                           error_reason := some "network_incompatible" },
             (StreamTester.get_cached_result tp.cache_ttl env.now cache
               (StreamTester.normalize_url source.url)).2, false) := by
        simp only [StreamTester.test_single_stream]
        rw [h1]
        simp [h2]
      rw [hcall]
      refine ⟨fun _ => ⟨?_, ?_⟩, cache_inv_gc _ _ _ _ hc⟩
      · simp [bitrateD, hbr]
      · simp [resolutionD, hres]

def c4_tp : TestingParams := {}

def c4_env : StreamTester.ProbeEnv :=
  { now := 0, outcome := .timedOut, elapsed_ms := 12001, speed := 0,
    ipv6_supported := true }

def c4_src : Rec := { name := "某频道", url := "http://h/s" }

/-- Witness for C4 at a concrete timed-out probe on a fresh candidate. -/
theorem probe_nonsuccess_zero_quality_witness :
    bitrateD (StreamTester.test_single_stream c4_tp c4_env [] c4_src).1 = 0 ∧
    resolutionD (StreamTester.test_single_stream c4_tp c4_env [] c4_src).1 = "" :=
  (probe_nonsuccess_zero_quality c4_tp c4_env [] c4_src rfl rfl
    (fun kv hkv => absurd hkv (List.not_mem_nil kv))).1 (by decide)

/-! ## Claim C1 -/

namespace StreamTester

/-- How one submitted future resolves inside the `as_completed` loop of
`test_all_sources` (src/app/stream_tester.py:135-193): `future.result`
returns (the probe parts `test_single_stream` merged over the source),
raises `TimeoutError`, or raises some other exception. -/
inductive FetchOutcome where
  | completed (st : String) (rt : Option Int) (m : Meta)
  | timedOut
  | errored
deriving DecidableEq

/-- The degraded result synthesized for a worker that timed out or raised
(src/app/stream_tester.py:169-189). -/
def degraded (source : Rec) (st : String) : Rec :=
  { source with status := some st, response_time := none,
                is_qualified := some false }

/-- The per-future body of the `as_completed` loop: a completed future's
result gets its qualification flag, a timeout or exception synthesizes a
degraded result for the same candidate. -/
def handle_one (fp : FilterParams) (source : Rec) : FetchOutcome → Rec
  | .completed st rt m =>
    let r := result_of_parts source st rt m
    { r with is_qualified := some (check_if_qualified fp r) }
  | .timedOut => degraded source "timeout"
  | .errored => degraded source "error"

/-- `StreamTester.test_all_sources` (src/app/stream_tester.py:87-207) over
the completion sequence of the thread pool: one (candidate, outcome) pair per
submitted future, processed in `as_completed` order (the theorem quantifies
over that order as an arbitrary permutation of the submissions).  The
initial `cleanup_cache` sweep and the progress/statistics logging do not
touch the result list and are not modelled. -/
def test_all_sources (fp : FilterParams) (jobs : List (Rec × FetchOutcome)) :
    List Rec :=
  jobs.map (fun j => handle_one fp j.1 j.2)

end StreamTester

/-- C1: whatever order the pool completes in, `test_all_sources` returns
exactly one result per submitted candidate — the multiset of results is the
image of the input multiset under the per-future handler, so nothing is
dropped or duplicated — every result keeps its candidate's identity
(name and url), and a timed-out / raising worker yields a degraded result
with status `'timeout'` / `'error'` instead of losing the candidate. -/
theorem test_all_sources_one_result_each (fp : FilterParams)
    (jobs completion_order : List (Rec × StreamTester.FetchOutcome))
    (hperm : completion_order.Perm jobs) :
    (StreamTester.test_all_sources fp completion_order).length = jobs.length ∧
    (StreamTester.test_all_sources fp completion_order).Perm
      (jobs.map (fun j => StreamTester.handle_one fp j.1 j.2)) ∧
    (∀ (source : Rec) (o : StreamTester.FetchOutcome),
      (StreamTester.handle_one fp source o).name = source.name ∧
      (StreamTester.handle_one fp source o).url = source.url) ∧
    (∀ source : Rec,
      statusD (StreamTester.handle_one fp source .timedOut) = "timeout" ∧
      statusD (StreamTester.handle_one fp source .errored) = "error") := by
  refine ⟨?_, hperm.map _, ?_, ?_⟩
  · simp [StreamTester.test_all_sources, hperm.length_eq]
  · intro source o
    cases o <;>
      simp [StreamTester.handle_one, StreamTester.degraded,
        StreamTester.result_of_parts, apply_meta]
  · intro source
    constructor <;> rfl

def c1_job1 : Rec × StreamTester.FetchOutcome :=
  ({ name := "CCTV-1 综合", url := "http://e/1" },
   .completed "success" (some 800)
     { resolution := some "1920x1080", bitrate := some 2500,
       is_hd := some true, is_4k := some false, has_video_stream := some true,
       has_audio_stream := some true, media_type := some "video" })

def c1_job2 : Rec × StreamTester.FetchOutcome :=
  ({ name := "挂掉的源", url := "http://e/2" }, .timedOut)

def c1_job3 : Rec × StreamTester.FetchOutcome :=
  ({ name := "抛异常的源", url := "http://e/3" }, .errored)

/-- Witness for C1: three submissions completing out of order still yield
three results, one per candidate. -/
theorem test_all_sources_one_result_each_witness :
    (StreamTester.test_all_sources defaultFilterParams
        [c1_job3, c1_job1, c1_job2]).length
      = ([c1_job1, c1_job2, c1_job3] :
          List (Rec × StreamTester.FetchOutcome)).length ∧
    statusD (StreamTester.handle_one defaultFilterParams c1_job2.1 .timedOut)
      = "timeout" :=
  ⟨(test_all_sources_one_result_each defaultFilterParams
      [c1_job1, c1_job2, c1_job3] [c1_job3, c1_job1, c1_job2] (by decide)).1,
   ((test_all_sources_one_result_each defaultFilterParams
      [c1_job1, c1_job2, c1_job3] [c1_job3, c1_job1, c1_job2] (by decide)).2.2.2
      c1_job2.1).1⟩
